import Mathlib

/-!
Shallow embedding of the Sensoriqua backend (`backend/app/auth.py`,
`backend/app/main.py`, `backend/app/db.py`) and proofs about its
tenant-context resolution, stable tenant-id assignment, application-state
store operations and time-series query planning.
-/

namespace Sensoriqua

/-- Python `str.startswith(p)`: `p`'s characters are a prefix of `s`'s. -/
def pyStartsWith (s p : String) : Bool :=
  p.data.isPrefixOf s.data

/-- Python slicing `s[n:]`: drop the first `n` characters. -/
def pyDrop (s : String) (n : Nat) : String :=
  ⟨s.data.drop n⟩

/-- Python `str.strip()`: remove leading and trailing whitespace. -/
def pyStrip (s : String) : String :=
  ⟨((s.data.dropWhile Char.isWhitespace).reverse.dropWhile Char.isWhitespace).reverse⟩

/-- Python `str.lower()` (characterwise). -/
def pyLower (s : String) : String :=
  ⟨s.data.map Char.toLower⟩

/-- Association-list lookup keyed by string, mirroring Python `dict.get`. -/
def alookup {α : Type} : List (String × α) → String → Option α
  | [], _ => none
  | (k', v) :: rest, k => if k' = k then some v else alookup rest k

/-- Value of `_user_credentials[userId]` in `auth.py`: the two per-tenant DSNs. -/
structure Creds where
  iotDbUrl : String
  userDbUrl : String
deriving Repr, DecidableEq

/-- The process-lifetime mutable state of `auth.py`:
`_user_credentials`, `_uuid_to_int`, `_int_counter`. -/
structure AuthState where
  userCredentials : List (String × Creds)
  uuidToInt : List (String × Nat)
  intCounter : Nat
deriving Repr

/-- Initial module state of `auth.py` (empty dicts, `_int_counter = 1`). -/
def initialAuthState : AuthState := ⟨[], [], 1⟩

/-- `store_credentials` in `auth.py`: record the two DSNs under the session id. -/
def storeCredentials (st : AuthState) (userId iotDbUrl userDbUrl : String) : AuthState :=
  { st with userCredentials := (userId, ⟨iotDbUrl, userDbUrl⟩) :: st.userCredentials }

/-- `get_credentials` in `auth.py`. -/
def getCredentials (st : AuthState) (userId : String) : Option Creds :=
  alookup st.userCredentials userId

/-- `_stable_user_id` in `auth.py`: map a session identity to a stable integer,
assigning `_int_counter` and incrementing it on first sight. -/
def stableUserId (st : AuthState) (uuidStr : String) : Nat × AuthState :=
  match alookup st.uuidToInt uuidStr with
  | some v => (v, st)
  | none =>
      (st.intCounter,
       { st with uuidToInt := (uuidStr, st.intCounter) :: st.uuidToInt,
                 intCounter := st.intCounter + 1 })

/-- Well-formedness of the `_uuid_to_int` table: every assigned integer is
below the counter, and no two identities share an integer. -/
def AuthWF (st : AuthState) : Prop :=
  (∀ k v, alookup st.uuidToInt k = some v → v < st.intCounter) ∧
  (∀ k₁ k₂ v, alookup st.uuidToInt k₁ = some v → alookup st.uuidToInt k₂ = some v → k₁ = k₂)

/-- `is_app_connect_enabled` in `auth.py`: strict mode iff the secret has at
least 32 characters. -/
def isAppConnectEnabled (secret : String) : Bool :=
  secret.length ≥ 32

/-- A decoded JWT payload as consumed by `get_request_context`
(`payload.get("userId")` may be absent). -/
structure TokenPayload where
  userId : Option String
  email : Option String
  role : Option String
deriving Repr, DecidableEq

/-- `RequestContext` dataclass in `auth.py`. -/
structure RequestContext where
  dsn : String
  appStateDsn : Option String
  userId : Int
deriving Repr, DecidableEq

/-- An `HTTPException(status, detail)` raised by a handler. -/
structure HttpError where
  status : Nat
  detail : String
deriving Repr, DecidableEq

/-- The 401 raised by `get_request_context` under strict mode. -/
def authRequiredError : HttpError :=
  ⟨401, "Authentication required. Use Navixy to open this application."⟩

/-- Bearer-token extraction in `get_request_context`: the `Authorization`
header, when it starts with `"Bearer "`, yields the rest stripped. -/
def extractBearer (authHeader : Option String) : Option String :=
  match authHeader with
  | none => none
  | some h => if pyStartsWith h "Bearer " then some (pyStrip (pyDrop h 7)) else none

/-- Fallback DSN in the standalone branch of `get_request_context`:
`(x_sensoriqua_dsn and x_sensoriqua_dsn.strip()) or default_dsn`. -/
def fallbackDsn (xSensoriquaDsn : Option String) (defaultDsn : String) : String :=
  match xSensoriquaDsn with
  | some h => if pyStrip h ≠ "" then pyStrip h else defaultDsn
  | none => defaultDsn

/-- `get_request_context` in `auth.py`. Token-signature verification
(`jwt.decode`) is abstracted as the function `verify`; everything else follows
the source control flow: a non-empty bearer token under strict mode is
verified and its `userId` looked up in the credential registry; any failure
falls through to the strict-mode 401; with strict mode off, the header DSN or
default DSN and the query or default user id are used. -/
def getRequestContext (secret : String) (verify : String → Option TokenPayload)
    (st : AuthState) (authHeader xSensoriquaDsn : Option String)
    (userIdQuery : Option Int) (defaultUserId : Int) (defaultDsn : String) :
    Except HttpError (RequestContext × AuthState) :=
  let token := extractBearer authHeader
  let viaToken : Option (RequestContext × AuthState) :=
    match token with
    | some t =>
      if t ≠ "" ∧ isAppConnectEnabled secret then
        match verify t with
        | some payload =>
          match payload.userId with
          | some uidStr =>
            if uidStr ≠ "" then
              match getCredentials st uidStr with
              | some creds =>
                let p := stableUserId st uidStr
                some (⟨creds.iotDbUrl, some creds.userDbUrl, (p.1 : Int)⟩, p.2)
              | none => none
            else none
          | none => none
        | none => none
      else none
    | none => none
  match viaToken with
  | some r => .ok r
  | none =>
    if isAppConnectEnabled secret then
      .error authRequiredError
    else
      .ok (⟨fallbackDsn xSensoriquaDsn defaultDsn, none, userIdQuery.getD defaultUserId⟩, st)

/-- Body of `POST /api/auth/login` (`AuthLoginRequest` in `main.py`). -/
structure AuthLoginRequest where
  email : String
  iotDbUrl : String
  userDbUrl : String
  role : String
deriving Repr, DecidableEq

/-- Outcome of `auth_login`. -/
inductive LoginResult
  | ok (userId token : String)
  | err (e : HttpError)
deriving Repr, DecidableEq

/-- `auth_login` in `main.py`. DSN validation (`_validate_dsn_for_login`,
URL-parsing based) is abstracted as `validateDsn`; UUID minting and JWT
signing are abstracted as `freshUuid` and `mkToken`. The branch order follows
the source: the 501 guard when App Connect is disabled comes first, before
any field validation, credential storage or token issuance. -/
def authLogin (secret : String) (validateDsn : String → Bool)
    (freshUuid : String) (mkToken : String → String → String → String)
    (st : AuthState) (body : AuthLoginRequest) : LoginResult × AuthState :=
  if ¬ isAppConnectEnabled secret then
    (.err ⟨501, "Navixy App Connect not configured (set JWT_SECRET with at least 32 characters)"⟩, st)
  else if body.email = "" ∨ body.iotDbUrl = "" ∨ body.userDbUrl = "" then
    (.err ⟨400, "Missing required fields: email, iotDbUrl, userDbUrl"⟩, st)
  else if ¬ validateDsn body.iotDbUrl then
    (.err ⟨400, "invalid iotDbUrl"⟩, st)
  else if ¬ validateDsn body.userDbUrl then
    (.err ⟨400, "invalid userDbUrl"⟩, st)
  else
    (.ok freshUuid (mkToken freshUuid body.email (if body.role = "" then "admin" else body.role)),
     storeCredentials st freshUuid body.iotDbUrl body.userDbUrl)

/-! ## Application-state store (`main.py` CRUD over `db.py` backends)

Handlers return either a value, an `HTTPException` (modelled as
`ApiResult.httpError`), or let an exception escape to the framework
(`ApiResult.uncaught`, surfaced by FastAPI as a generic 500). The condition
"the relational-schema path's `app_sensoriqua` tables exist" is the boolean
`tablesExist`; executing SQL against a missing table raises
`psycopg.errors.UndefinedTable`, and each handler's modelled behaviour at
`tablesExist = false` follows that handler's own `try`/`except` structure. -/

/-- Result of a request handler: normal value, `HTTPException`, or an
exception propagated to the framework (generic failure). -/
inductive ApiResult (α : Type)
  | ok (a : α)
  | httpError (e : HttpError)
  | uncaught (detail : String)
deriving Repr, DecidableEq

/-- Whether the handler produced an `HTTPException` (deliberate, mapped
client-visible error) as opposed to a value or an uncaught exception. -/
def ApiResult.isHttpError {α : Type} : ApiResult α → Bool
  | .httpError _ => true
  | _ => false

/-- Source-kind normalization used by the handlers:
`(raw or "input").strip().lower()`, then anything outside
`("input", "state", "tracking")` becomes `"input"`. -/
def normalizeSource (raw : Option String) : String :=
  let s0 := match raw with
    | none => "input"
    | some t => if t = "" then "input" else t
  let s := pyLower (pyStrip s0)
  if s = "input" ∨ s = "state" ∨ s = "tracking" then s else "input"

/-- A row of the `configured_sensors` table (schema in `db.py`). -/
structure ConfiguredSensorRow where
  configuredSensorId : Nat
  userId : Int
  objectId : Int
  deviceId : Int
  sensorInputLabel : String
  sensorSource : String
  sensorId : Option Int
  sensorLabelCustom : String
  minThreshold : Option Rat
  maxThreshold : Option Rat
  multiplier : Option Rat
  isActive : Bool
deriving Repr, DecidableEq

/-- A row of the `dashboard_planes` table (schema in `db.py`). -/
structure DashboardPlaneRow where
  dashboardPlaneId : Nat
  userId : Int
  configuredSensorId : Nat
  positionIndex : Int
deriving Repr, DecidableEq

/-- The application-state database: the two tables plus their autoincrement
counters. -/
structure AppStateStore where
  configuredSensors : List ConfiguredSensorRow
  dashboardPlanes : List DashboardPlaneRow
  nextConfiguredSensorId : Nat
  nextDashboardPlaneId : Nat
deriving Repr, DecidableEq

/-- An empty application-state store. -/
def emptyStore : AppStateStore := ⟨[], [], 1, 1⟩

/-- `ConfiguredSensorCreate` body in `main.py`. Float thresholds are modelled
as rationals. -/
structure ConfiguredSensorCreate where
  objectId : Int
  deviceId : Int
  sensorInputLabel : String
  sensorSource : String
  sensorId : Option Int
  sensorLabelCustom : String
  minThreshold : Option Rat
  maxThreshold : Option Rat
  multiplier : Option Rat
deriving Repr, DecidableEq

/-- `ConfiguredSensorUpdate` body in `main.py`. The outer `Option` is
pydantic's "field present in the request" (`exclude_unset`); the inner
`Option` is an explicit null. The attribute value seen by the handler's
threshold check is the `Option.join`. -/
structure ConfiguredSensorUpdate where
  sensorLabelCustom : Option String
  minThreshold : Option (Option Rat)
  maxThreshold : Option (Option Rat)
  multiplier : Option (Option Rat)
deriving Repr, DecidableEq

/-- The guard shared by create and update:
`min_threshold is not None and max_threshold is not None and min >= max`. -/
def minMaxRejected (mn mx : Option Rat) : Bool :=
  match mn, mx with
  | some a, some b => a ≥ b
  | _, _ => false

/-- The 400 raised when the threshold guard fires. -/
def minMaxError : HttpError := ⟨400, "MIN must be less than MAX"⟩

/-- The actionable 503 raised by `add_configured_sensor` when the
`configured_sensors` table is missing. -/
def storeNotInitializedError : HttpError :=
  ⟨503, "Configured sensors table not found. Add to backend/.env: SENSORIQUA_APP_STATE_DSN=sqlite:///./sensoriqua_state.db to use local storage without DB migrations (no app_sensoriqua schema required)."⟩

/-- The `psycopg.errors.UndefinedTable` message for the relational-schema
path's tables. -/
def undefinedTableMsg : String :=
  "relation \x22app_sensoriqua.configured_sensors\x22 does not exist"

/-- `GET /api/configured-sensors` (`list_configured_sensors`): rows of the
caller's tenant with `is_active` set; `except UndefinedTable: return []`. -/
def listConfiguredSensors (tablesExist : Bool) (uid : Int) (st : AppStateStore) :
    ApiResult (List ConfiguredSensorRow) :=
  if tablesExist then
    .ok (st.configuredSensors.filter (fun r => r.userId = uid ∧ r.isActive))
  else
    .ok []

/-- `GET /api/dashboard-planes` (`list_dashboard_planes`): the caller's
planes joined to active configured sensors; `except UndefinedTable: return []`. -/
def listDashboardPlanes (tablesExist : Bool) (uid : Int) (st : AppStateStore) :
    ApiResult (List DashboardPlaneRow) :=
  if tablesExist then
    .ok (st.dashboardPlanes.filter (fun d =>
      d.userId = uid ∧ st.configuredSensors.any (fun c =>
        c.configuredSensorId = d.configuredSensorId ∧ c.isActive)))
  else
    .ok []

/-- `POST /api/configured-sensors` (`add_configured_sensor`): threshold guard
first, then INSERT; `except UndefinedTable` whose message names the table
maps to the actionable 503. -/
def addConfiguredSensor (tablesExist : Bool) (uid : Int)
    (body : ConfiguredSensorCreate) (st : AppStateStore) :
    ApiResult ConfiguredSensorRow × AppStateStore :=
  if minMaxRejected body.minThreshold body.maxThreshold then
    (.httpError minMaxError, st)
  else
    let source := normalizeSource (some body.sensorSource)
    if tablesExist then
      let row : ConfiguredSensorRow :=
        { configuredSensorId := st.nextConfiguredSensorId
          userId := uid
          objectId := body.objectId
          deviceId := body.deviceId
          sensorInputLabel := body.sensorInputLabel
          sensorSource := source
          sensorId := body.sensorId
          sensorLabelCustom := body.sensorLabelCustom
          minThreshold := body.minThreshold
          maxThreshold := body.maxThreshold
          multiplier := body.multiplier
          isActive := true }
      (.ok row,
       { st with configuredSensors := st.configuredSensors ++ [row],
                 nextConfiguredSensorId := st.nextConfiguredSensorId + 1 })
    else
      (.httpError storeNotInitializedError, st)

/-- Field application of `update_configured_sensor`'s dynamic `SET` list to
one row. -/
def applyUpdate (body : ConfiguredSensorUpdate) (r : ConfiguredSensorRow) :
    ConfiguredSensorRow :=
  { r with
    sensorLabelCustom := (body.sensorLabelCustom).getD r.sensorLabelCustom
    minThreshold := (body.minThreshold).getD r.minThreshold
    maxThreshold := (body.maxThreshold).getD r.maxThreshold
    multiplier := (body.multiplier).getD r.multiplier }

/-- `PATCH /api/configured-sensors/{id}` (`update_configured_sensor`):
threshold guard, then "no fields" guard, then UPDATE scoped to
`configured_sensor_id` and `user_id`, 404 on zero rowcount. No
`UndefinedTable` handler: a missing table escapes as a generic failure. -/
def updateConfiguredSensor (tablesExist : Bool) (uid : Int) (csId : Nat)
    (body : ConfiguredSensorUpdate) (st : AppStateStore) :
    ApiResult Unit × AppStateStore :=
  if minMaxRejected (body.minThreshold).join (body.maxThreshold).join then
    (.httpError minMaxError, st)
  else if body.sensorLabelCustom.isNone ∧ body.minThreshold.isNone ∧
          body.maxThreshold.isNone ∧ body.multiplier.isNone then
    (.httpError ⟨400, "No fields to update"⟩, st)
  else if tablesExist then
    if st.configuredSensors.any (fun r => r.configuredSensorId = csId ∧ r.userId = uid) then
      (.ok (),
       { st with configuredSensors := st.configuredSensors.map (fun r =>
           if r.configuredSensorId = csId ∧ r.userId = uid then applyUpdate body r else r) })
    else
      (.httpError ⟨404, "Configured sensor not found"⟩, st)
  else
    (.uncaught undefinedTableMsg, st)

/-- `DELETE /api/configured-sensors/{id}` (`delete_configured_sensor`):
soft delete (`is_active` cleared) scoped to the caller's tenant, 404 on zero
rowcount. No `UndefinedTable` handler. -/
def deleteConfiguredSensor (tablesExist : Bool) (uid : Int) (csId : Nat)
    (st : AppStateStore) : ApiResult Unit × AppStateStore :=
  if tablesExist then
    if st.configuredSensors.any (fun r => r.configuredSensorId = csId ∧ r.userId = uid) then
      (.ok (),
       { st with configuredSensors := st.configuredSensors.map (fun r =>
           if r.configuredSensorId = csId ∧ r.userId = uid then { r with isActive := false } else r) })
    else
      (.httpError ⟨404, "Configured sensor not found"⟩, st)
  else
    (.uncaught undefinedTableMsg, st)

/-- `POST /api/dashboard-planes` (`add_dashboard_plane`): ownership check
(403), then
`INSERT ... ON CONFLICT (user_id, configured_sensor_id) DO UPDATE SET position_index`.
This handler has no `UndefinedTable` handler at all: with the tables missing
the very first SELECT escapes as a generic failure. -/
def addDashboardPlane (tablesExist : Bool) (uid : Int) (csId : Nat)
    (posIndex : Int) (st : AppStateStore) :
    ApiResult DashboardPlaneRow × AppStateStore :=
  if ¬ tablesExist then
    (.uncaught undefinedTableMsg, st)
  else if ¬ st.configuredSensors.any (fun r =>
      r.configuredSensorId = csId ∧ r.userId = uid ∧ r.isActive) then
    (.httpError ⟨403, "Configured sensor not found or access denied"⟩, st)
  else
    match st.dashboardPlanes.find? (fun d =>
        decide (d.userId = uid ∧ d.configuredSensorId = csId)) with
    | some existing =>
        (.ok { existing with positionIndex := posIndex },
         { st with dashboardPlanes := st.dashboardPlanes.map (fun d =>
             if d.userId = uid ∧ d.configuredSensorId = csId then
               { d with positionIndex := posIndex }
             else d) })
    | none =>
        let row : DashboardPlaneRow := ⟨st.nextDashboardPlaneId, uid, csId, posIndex⟩
        (.ok row,
         { st with dashboardPlanes := st.dashboardPlanes ++ [row],
                   nextDashboardPlaneId := st.nextDashboardPlaneId + 1 })

/-- `DELETE /api/dashboard-planes/{id}` (`remove_dashboard_plane`):
`DELETE ... WHERE dashboard_plane_id = %s AND user_id = %s`, commit, then 404
on zero rowcount. No `UndefinedTable` handler. -/
def removeDashboardPlane (tablesExist : Bool) (uid : Int) (planeId : Nat)
    (st : AppStateStore) : ApiResult Unit × AppStateStore :=
  if ¬ tablesExist then
    (.uncaught undefinedTableMsg, st)
  else
    let keep := st.dashboardPlanes.filter (fun d =>
      ¬ (d.dashboardPlaneId = planeId ∧ d.userId = uid))
    let st' := { st with dashboardPlanes := keep }
    if keep.length = st.dashboardPlanes.length then
      (.httpError ⟨404, "Dashboard plane not found"⟩, st')
    else
      (.ok (), st')

/-- The (tenant, configured sensor) key of a dashboard-plane row. -/
def planeKey (d : DashboardPlaneRow) : Int × Nat :=
  (d.userId, d.configuredSensorId)

/-- The `UNIQUE(user_id, configured_sensor_id)` constraint of the
`dashboard_planes` schema in `db.py`: no two rows share a plane key. -/
def PlanesUnique (st : AppStateStore) : Prop :=
  (st.dashboardPlanes.map planeKey).Nodup

/-! ## Time-series aggregation engine (`main.py` batch/history query planning)

What matters for the claims is which column names reach string interpolation
for the `tracking_data_core` source, so the embedding models the pair
normalization/partitioning and the set of interpolated columns. -/

/-- `TRACKING_DATA_CORE_SIGNALS` in `main.py`: the fixed whitelist of
`tracking_data_core` value columns. -/
def TRACKING_DATA_CORE_SIGNALS : List String :=
  ["latitude", "longitude", "speed", "altitude", "satellites", "hdop", "gps_fix_type", "event_id"]

/-- One element of the `pairs` list of `batch_sparklines` /
`batch_latest_values`; `sensor_source` may be absent. -/
structure SensorPair where
  deviceId : Int
  sensorInputLabel : String
  sensorSource : Option String
deriving Repr, DecidableEq

/-- The `normalized` list built by both batch handlers. -/
def normalizePairs (pairs : List SensorPair) : List (Int × String × String) :=
  pairs.map (fun p => (p.deviceId, p.sensorInputLabel, normalizeSource p.sensorSource))

/-- The `tracking_pairs` partition of both batch handlers:
source `"tracking"` and label inside the whitelist. -/
def trackingPartition (pairs : List SensorPair) : List (Int × String) :=
  ((normalizePairs pairs).filter (fun t =>
    t.2.2 = "tracking" ∧ t.2.1 ∈ TRACKING_DATA_CORE_SIGNALS)).map (fun t => (t.1, t.2.1))

/-- The column names `batch_sparklines` interpolates into its per-column
tracking SQL (the keys of `col_to_devices`). -/
def sparklinesTrackingCols (pairs : List SensorPair) : List String :=
  ((trackingPartition pairs).map (fun t => t.2)).dedup

/-- The `(device, column)` pairs for which `batch_latest_values` runs its
per-pair tracking query with the column interpolated. -/
def latestTrackingQueries (pairs : List SensorPair) : List (Int × String) :=
  trackingPartition pairs

/-- The query a `sensor_history` request resolves to; for the tracking shape
the held string is the column name interpolated into the SQL. -/
inductive HistoryQuery
  | inputQ (device : Int) (sensorName : String) (hours : Int)
  | stateQ (device : Int) (stateName : String) (hours : Int)
  | trackingQ (device : Int) (col : String) (hours : Int)
deriving Repr, DecidableEq

/-- `POST /api/sensor-history` (`sensor_history`) up to the point the SQL is
chosen: the `hours` check, source normalization, the tracking whitelist
check, then the per-source query. -/
def sensorHistoryPlan (deviceId : Int) (sensorInputLabel sensorSource : String)
    (hours : Int) : ApiResult HistoryQuery :=
  if ¬ (hours = 1 ∨ hours = 4 ∨ hours = 12 ∨ hours = 24) then
    .httpError ⟨400, "hours must be 1, 4, 12, or 24"⟩
  else
    let src := normalizeSource (some sensorSource)
    if src = "tracking" ∧ sensorInputLabel ∉ TRACKING_DATA_CORE_SIGNALS then
      .httpError ⟨400, "sensor_input_label not allowed for tracking source"⟩
    else if src = "input" then
      .ok (.inputQ deviceId sensorInputLabel hours)
    else if src = "state" then
      .ok (.stateQ deviceId sensorInputLabel hours)
    else
      .ok (.trackingQ deviceId sensorInputLabel hours)

/-! ## Helper lemmas -/

theorem stableUserId_userCredentials (st : AuthState) (k : String) :
    (stableUserId st k).2.userCredentials = st.userCredentials := by
  cases h : alookup st.uuidToInt k <;> simp [stableUserId, h]

theorem stableUserId_lookup_self (st : AuthState) (k : String) :
    alookup (stableUserId st k).2.uuidToInt k = some (stableUserId st k).1 := by
  cases h : alookup st.uuidToInt k with
  | some v => simp [stableUserId, h]
  | none => simp [stableUserId, h, alookup]

theorem stableUserId_wf (st : AuthState) (k : String) (h : AuthWF st) :
    AuthWF (stableUserId st k).2 := by
  obtain ⟨hlt, hinj⟩ := h
  cases hk : alookup st.uuidToInt k with
  | some v => simpa [stableUserId, hk, AuthWF] using ⟨hlt, hinj⟩
  | none =>
    refine ⟨?_, ?_⟩
    · intro k' v' hv'
      simp only [stableUserId, hk, alookup] at hv' ⊢
      by_cases hkk : k = k'
      · rw [if_pos hkk] at hv'
        have : st.intCounter = v' := by exact Option.some.inj hv'
        omega
      · rw [if_neg hkk] at hv'
        have := hlt k' v' hv'
        omega
    · intro k₁ k₂ v h₁ h₂
      simp only [stableUserId, hk, alookup] at h₁ h₂
      by_cases hk₁ : k = k₁ <;> by_cases hk₂ : k = k₂
      · exact hk₁ ▸ hk₂
      · rw [if_pos hk₁] at h₁
        rw [if_neg hk₂] at h₂
        have hv : st.intCounter = v := Option.some.inj h₁
        have := hlt k₂ v h₂
        omega
      · rw [if_neg hk₁] at h₁
        rw [if_pos hk₂] at h₂
        have hv : st.intCounter = v := Option.some.inj h₂
        have := hlt k₁ v h₁
        omega
      · rw [if_neg hk₁] at h₁
        rw [if_neg hk₂] at h₂
        exact hinj k₁ k₂ v h₁ h₂

theorem stableUserId_of_lookup (st : AuthState) (k : String) (v : Nat)
    (h : alookup st.uuidToInt k = some v) : stableUserId st k = (v, st) := by
  simp [stableUserId, h]

theorem stableUserId_fst_of_fresh (st : AuthState) (k : String)
    (h : alookup st.uuidToInt k = none) : (stableUserId st k).1 = st.intCounter := by
  simp [stableUserId, h]

theorem stableUserId_stable (st : AuthState) (k : String) :
    stableUserId (stableUserId st k).2 k = ((stableUserId st k).1, (stableUserId st k).2) :=
  stableUserId_of_lookup _ k _ (stableUserId_lookup_self st k)

theorem stableUserId_lt (st : AuthState) (k : String) (h : AuthWF st) :
    (stableUserId st k).1 < (stableUserId st k).2.intCounter :=
  (stableUserId_wf st k h).1 k _ (stableUserId_lookup_self st k)

theorem stableUserId_preserves (st : AuthState) (k k' : String) (v : Nat)
    (h : alookup st.uuidToInt k = some v) :
    alookup (stableUserId st k').2.uuidToInt k = some v := by
  cases hk' : alookup st.uuidToInt k' with
  | some w => simp [stableUserId, hk', h]
  | none =>
    have hne : ¬ (k' = k) := by
      intro heq
      rw [heq, h] at hk'
      exact Option.noConfusion hk'
    simp [stableUserId, hk', alookup, hne, h]

theorem stableUserId_inj (st : AuthState) (k₁ k₂ : String) (h : AuthWF st)
    (hne : k₁ ≠ k₂) :
    (stableUserId (stableUserId st k₁).2 k₂).1 ≠ (stableUserId st k₁).1 := by
  have hwf₁ : AuthWF (stableUserId st k₁).2 := stableUserId_wf st k₁ h
  have h₁ : alookup (stableUserId st k₁).2.uuidToInt k₁ = some (stableUserId st k₁).1 :=
    stableUserId_lookup_self st k₁
  cases hk₂ : alookup (stableUserId st k₁).2.uuidToInt k₂ with
  | some w =>
    have hval : (stableUserId (stableUserId st k₁).2 k₂).1 = w := by
      rw [stableUserId_of_lookup _ _ _ hk₂]
    rw [hval]
    intro heq
    have hk₂' : alookup (stableUserId st k₁).2.uuidToInt k₂ =
        some (stableUserId st k₁).1 := by rw [hk₂, heq]
    exact hne (hwf₁.2 k₁ k₂ _ h₁ hk₂')
  | none =>
    have hval : (stableUserId (stableUserId st k₁).2 k₂).1 =
        (stableUserId st k₁).2.intCounter :=
      stableUserId_fst_of_fresh _ _ hk₂
    have hlt := hwf₁.1 k₁ _ h₁
    omega

theorem getRequestContext_strict_hit
    (secret : String) (verify : String → Option TokenPayload) (st : AuthState)
    (hdr xdsn : Option String) (uq : Option Int) (du : Int) (dd : String)
    (t : String) (payload : TokenPayload) (uidStr : String) (creds : Creds)
    (hstrict : isAppConnectEnabled secret = true)
    (hb : extractBearer hdr = some t) (ht : t ≠ "")
    (hv : verify t = some payload) (hu : payload.userId = some uidStr)
    (hu0 : uidStr ≠ "") (hc : getCredentials st uidStr = some creds) :
    getRequestContext secret verify st hdr xdsn uq du dd =
      .ok (⟨creds.iotDbUrl, some creds.userDbUrl, ((stableUserId st uidStr).1 : Int)⟩,
           (stableUserId st uidStr).2) := by
  simp [getRequestContext, hb, ht, hstrict, hv, hu, hu0, hc]

theorem getRequestContext_strict_miss
    (secret : String) (verify : String → Option TokenPayload) (st : AuthState)
    (hdr xdsn : Option String) (uq : Option Int) (du : Int) (dd : String)
    (hstrict : isAppConnectEnabled secret = true)
    (hmiss : ∀ t payload uidStr creds, extractBearer hdr = some t → t ≠ "" →
      verify t = some payload → payload.userId = some uidStr → uidStr ≠ "" →
      getCredentials st uidStr = some creds → False) :
    getRequestContext secret verify st hdr xdsn uq du dd = .error authRequiredError := by
  cases hb : extractBearer hdr with
  | none => simp [getRequestContext, hb, hstrict]
  | some t =>
    by_cases ht : t = ""
    · simp [getRequestContext, hb, ht, hstrict]
    · cases hv : verify t with
      | none => simp [getRequestContext, hb, ht, hstrict, hv]
      | some payload =>
        cases hu : payload.userId with
        | none => simp [getRequestContext, hb, ht, hstrict, hv, hu]
        | some uidStr =>
          by_cases hu0 : uidStr = ""
          · simp [getRequestContext, hb, ht, hstrict, hv, hu, hu0]
          · cases hc : getCredentials st uidStr with
            | none => simp [getRequestContext, hb, ht, hstrict, hv, hu, hu0, hc]
            | some creds => exact (hmiss t payload uidStr creds hb ht hv hu hu0 hc).elim

theorem getRequestContext_disabled
    (secret : String) (verify : String → Option TokenPayload) (st : AuthState)
    (hdr xdsn : Option String) (uq : Option Int) (du : Int) (dd : String)
    (hdis : isAppConnectEnabled secret = false) :
    getRequestContext secret verify st hdr xdsn uq du dd =
      .ok (⟨fallbackDsn xdsn dd, none, uq.getD du⟩, st) := by
  cases hb : extractBearer hdr with
  | none => simp [getRequestContext, hb, hdis]
  | some t => simp [getRequestContext, hb, hdis]

theorem getRequestContext_strict_ok_inv
    (secret : String) (verify : String → Option TokenPayload) (st : AuthState)
    (hdr xdsn : Option String) (uq : Option Int) (du : Int) (dd : String)
    (ctx : RequestContext) (st' : AuthState)
    (hstrict : isAppConnectEnabled secret = true)
    (hok : getRequestContext secret verify st hdr xdsn uq du dd = .ok (ctx, st')) :
    ∃ t payload uidStr creds,
      extractBearer hdr = some t ∧ t ≠ "" ∧ verify t = some payload ∧
      payload.userId = some uidStr ∧ uidStr ≠ "" ∧
      getCredentials st uidStr = some creds ∧
      ctx = ⟨creds.iotDbUrl, some creds.userDbUrl, ((stableUserId st uidStr).1 : Int)⟩ ∧
      st' = (stableUserId st uidStr).2 := by
  cases hb : extractBearer hdr with
  | none =>
    rw [getRequestContext_strict_miss secret verify st hdr xdsn uq du dd hstrict
      (by intro t p u c hb' _ _ _ _ _; rw [hb] at hb'; exact Option.noConfusion hb')] at hok
    exact Except.noConfusion hok
  | some t =>
    by_cases ht : t = ""
    · rw [getRequestContext_strict_miss secret verify st hdr xdsn uq du dd hstrict
        (by intro t' p u c hb' ht' _ _ _ _
            rw [hb] at hb'
            exact ht' (Option.some.inj hb' ▸ ht))] at hok
      exact Except.noConfusion hok
    · cases hv : verify t with
      | none =>
        rw [getRequestContext_strict_miss secret verify st hdr xdsn uq du dd hstrict
          (by intro t' p u c hb' _ hv' _ _ _
              rw [hb] at hb'
              rw [Option.some.inj hb'] at hv
              rw [hv'] at hv
              exact Option.noConfusion hv)] at hok
        exact Except.noConfusion hok
      | some payload =>
        cases hu : payload.userId with
        | none =>
          rw [getRequestContext_strict_miss secret verify st hdr xdsn uq du dd hstrict
            (by intro t' p u c hb' _ hv' hu' _ _
                rw [hb] at hb'
                obtain rfl := Option.some.inj hb'
                rw [hv] at hv'
                obtain rfl := Option.some.inj hv'
                rw [hu] at hu'
                exact Option.noConfusion hu')] at hok
          exact Except.noConfusion hok
        | some uidStr =>
          by_cases hu0 : uidStr = ""
          · rw [getRequestContext_strict_miss secret verify st hdr xdsn uq du dd hstrict
              (by intro t' p u c hb' _ hv' hu' hu0' _
                  rw [hb] at hb'
                  obtain rfl := Option.some.inj hb'
                  rw [hv] at hv'
                  obtain rfl := Option.some.inj hv'
                  rw [hu] at hu'
                  obtain rfl := Option.some.inj hu'
                  exact hu0' hu0)] at hok
            exact Except.noConfusion hok
          · cases hc : getCredentials st uidStr with
            | none =>
              rw [getRequestContext_strict_miss secret verify st hdr xdsn uq du dd hstrict
                (by intro t' p u c hb' _ hv' hu' _ hc'
                    rw [hb] at hb'
                    obtain rfl := Option.some.inj hb'
                    rw [hv] at hv'
                    obtain rfl := Option.some.inj hv'
                    rw [hu] at hu'
                    obtain rfl := Option.some.inj hu'
                    rw [hc] at hc'
                    exact Option.noConfusion hc')] at hok
              exact Except.noConfusion hok
            | some creds =>
              rw [getRequestContext_strict_hit secret verify st hdr xdsn uq du dd
                t payload uidStr creds hstrict hb ht hv hu hu0 hc] at hok
              obtain ⟨h₁, h₂⟩ := Prod.mk.inj (Except.ok.inj hok)
              exact ⟨t, payload, uidStr, creds, rfl, ht, hv, hu, hu0, hc, h₁.symm, h₂.symm⟩

theorem normalizeSource_cases (raw : Option String) :
    normalizeSource raw = "input" ∨ normalizeSource raw = "state" ∨
      normalizeSource raw = "tracking" := by
  simp only [normalizeSource]
  split
  · next h => exact h
  · left
    rfl

/-! ## Claim theorems -/

/-- **C1.** With strict mode enabled, a bearer token is mandatory: every
successful context resolution draws its connection strings exclusively from
the Credential Registry entry of the verified token's session identity; a
missing token, a token failing verification, and a verified token whose
session identity has no registry entry all fail with the same authentication
error; and the header connection string, default connection string and
query/default user id are never consulted. -/
theorem C1_strict_mode_fail_closed
    (secret : String) (verify : String → Option TokenPayload) (st : AuthState)
    (hdr xdsn : Option String) (uq : Option Int) (du : Int) (dd : String)
    (hstrict : isAppConnectEnabled secret = true) :
    (∀ ctx st', getRequestContext secret verify st hdr xdsn uq du dd = .ok (ctx, st') →
      ∃ t payload uidStr creds,
        extractBearer hdr = some t ∧ verify t = some payload ∧
        payload.userId = some uidStr ∧ getCredentials st uidStr = some creds ∧
        ctx.dsn = creds.iotDbUrl ∧ ctx.appStateDsn = some creds.userDbUrl) ∧
    (extractBearer hdr = none →
      getRequestContext secret verify st hdr xdsn uq du dd = .error authRequiredError) ∧
    (∀ t, extractBearer hdr = some t → verify t = none →
      getRequestContext secret verify st hdr xdsn uq du dd = .error authRequiredError) ∧
    (∀ t payload uidStr, extractBearer hdr = some t → verify t = some payload →
      payload.userId = some uidStr → getCredentials st uidStr = none →
      getRequestContext secret verify st hdr xdsn uq du dd = .error authRequiredError) ∧
    (∀ xdsn' uq' du' dd',
      getRequestContext secret verify st hdr xdsn uq du dd =
        getRequestContext secret verify st hdr xdsn' uq' du' dd') := by
  refine ⟨?_, ?_, ?_, ?_, ?_⟩
  · intro ctx st' hok
    obtain ⟨t, p, u, c, hb, ht, hv, hu, hu0, hc, hctx, hst⟩ :=
      getRequestContext_strict_ok_inv secret verify st hdr xdsn uq du dd ctx st' hstrict hok
    exact ⟨t, p, u, c, hb, hv, hu, hc, by rw [hctx], by rw [hctx]⟩
  · intro hb
    exact getRequestContext_strict_miss secret verify st hdr xdsn uq du dd hstrict
      (by intro t' p u c hb' _ _ _ _ _; rw [hb] at hb'; exact Option.noConfusion hb')
  · intro t hb hv
    refine getRequestContext_strict_miss secret verify st hdr xdsn uq du dd hstrict ?_
    intro t' p u c hb' _ hv' _ _ _
    rw [hb] at hb'
    obtain rfl := Option.some.inj hb'
    rw [hv] at hv'
    exact Option.noConfusion hv'
  · intro t payload uidStr hb hv hu hc
    refine getRequestContext_strict_miss secret verify st hdr xdsn uq du dd hstrict ?_
    intro t' p u c hb' _ hv' hu' _ hc'
    rw [hb] at hb'
    obtain rfl := Option.some.inj hb'
    rw [hv] at hv'
    obtain rfl := Option.some.inj hv'
    rw [hu] at hu'
    obtain rfl := Option.some.inj hu'
    rw [hc] at hc'
    exact Option.noConfusion hc'
  · intro xdsn' uq' du' dd'
    by_cases hchain : ∃ t payload uidStr creds,
        extractBearer hdr = some t ∧ t ≠ "" ∧ verify t = some payload ∧
        payload.userId = some uidStr ∧ uidStr ≠ "" ∧ getCredentials st uidStr = some creds
    · obtain ⟨t, p, u, c, hb, ht, hv, hu, hu0, hc⟩ := hchain
      rw [getRequestContext_strict_hit secret verify st hdr xdsn uq du dd
            t p u c hstrict hb ht hv hu hu0 hc,
          getRequestContext_strict_hit secret verify st hdr xdsn' uq' du' dd'
            t p u c hstrict hb ht hv hu hu0 hc]
    · have hmiss : ∀ t p u c, extractBearer hdr = some t → t ≠ "" →
          verify t = some p → p.userId = some u → u ≠ "" →
          getCredentials st u = some c → False := by
        intro t p u c hb ht hv hu hu0 hc
        exact hchain ⟨t, p, u, c, hb, ht, hv, hu, hu0, hc⟩
      rw [getRequestContext_strict_miss secret verify st hdr xdsn uq du dd hstrict hmiss,
          getRequestContext_strict_miss secret verify st hdr xdsn' uq' du' dd' hstrict hmiss]

/-- Witness for C1 at concrete inputs: a 32-character secret, a verifier
accepting no token, and a request without a token. -/
theorem C1_strict_mode_fail_closed_witness :
    isAppConnectEnabled "0123456789abcdef0123456789abcdef" = true ∧
    getRequestContext "0123456789abcdef0123456789abcdef" (fun _ => none)
      initialAuthState none (some "postgresql://u:p@h/db") (some 7) 1
      "postgresql://d:d@h/db" = .error authRequiredError :=
  ⟨by decide,
   (C1_strict_mode_fail_closed "0123456789abcdef0123456789abcdef" (fun _ => none)
     initialAuthState none (some "postgresql://u:p@h/db") (some 7) 1
     "postgresql://d:d@h/db" (by decide)).2.1 rfl⟩

theorem getCredentials_stableUserId (st : AuthState) (k u : String) :
    getCredentials (stableUserId st k).2 u = getCredentials st u := by
  simp [getCredentials, stableUserId_userCredentials]

theorem authWF_of_nil (creds : List (String × Creds)) (n : Nat) :
    AuthWF ⟨creds, [], n⟩ := by
  constructor
  · intro k v h
    simp [alookup] at h
  · intro k₁ k₂ v h₁ h₂
    simp [alookup] at h₁

/-- **C2.** Tenant isolation: for two distinct registered session identities
with pairwise distinct stored connection strings, resolving a context from a
valid token for the first and then one for the second yields contexts whose
connection strings and stable tenant identities are each the owning
session's, and the two contexts disagree on primary DSN, app-state DSN and
tenant identity. -/
theorem C2_session_isolation
    (secret : String) (verify : String → Option TokenPayload) (st : AuthState)
    (s₁ s₂ : String) (c₁ c₂ : Creds) (p₁ p₂ : TokenPayload)
    (hdr₁ hdr₂ xdsn : Option String) (t₁ t₂ : String)
    (uq : Option Int) (du : Int) (dd : String)
    (hwf : AuthWF st) (hstrict : isAppConnectEnabled secret = true)
    (hne : s₁ ≠ s₂) (hs₁ : s₁ ≠ "") (hs₂ : s₂ ≠ "")
    (hc₁ : getCredentials st s₁ = some c₁) (hc₂ : getCredentials st s₂ = some c₂)
    (hiot : c₁.iotDbUrl ≠ c₂.iotDbUrl) (hudb : c₁.userDbUrl ≠ c₂.userDbUrl)
    (hb₁ : extractBearer hdr₁ = some t₁) (ht₁ : t₁ ≠ "")
    (hb₂ : extractBearer hdr₂ = some t₂) (ht₂ : t₂ ≠ "")
    (hv₁ : verify t₁ = some p₁) (hp₁ : p₁.userId = some s₁)
    (hv₂ : verify t₂ = some p₂) (hp₂ : p₂.userId = some s₂) :
    ∃ ctx₁ st₁ ctx₂ st₂,
      getRequestContext secret verify st hdr₁ xdsn uq du dd = .ok (ctx₁, st₁) ∧
      getRequestContext secret verify st₁ hdr₂ xdsn uq du dd = .ok (ctx₂, st₂) ∧
      ctx₁.dsn = c₁.iotDbUrl ∧ ctx₁.appStateDsn = some c₁.userDbUrl ∧
      ctx₂.dsn = c₂.iotDbUrl ∧ ctx₂.appStateDsn = some c₂.userDbUrl ∧
      ctx₁.dsn ≠ ctx₂.dsn ∧ ctx₁.appStateDsn ≠ ctx₂.appStateDsn ∧
      ctx₁.userId ≠ ctx₂.userId := by
  have hc₂' : getCredentials (stableUserId st s₁).2 s₂ = some c₂ := by
    rw [getCredentials_stableUserId]
    exact hc₂
  refine ⟨⟨c₁.iotDbUrl, some c₁.userDbUrl, ((stableUserId st s₁).1 : Int)⟩,
          (stableUserId st s₁).2,
          ⟨c₂.iotDbUrl, some c₂.userDbUrl, ((stableUserId (stableUserId st s₁).2 s₂).1 : Int)⟩,
          (stableUserId (stableUserId st s₁).2 s₂).2,
          ?_, ?_, rfl, rfl, rfl, rfl, hiot, ?_, ?_⟩
  · exact getRequestContext_strict_hit secret verify st hdr₁ xdsn uq du dd
      t₁ p₁ s₁ c₁ hstrict hb₁ ht₁ hv₁ hp₁ hs₁ hc₁
  · exact getRequestContext_strict_hit secret verify (stableUserId st s₁).2 hdr₂ xdsn uq du dd
      t₂ p₂ s₂ c₂ hstrict hb₂ ht₂ hv₂ hp₂ hs₂ hc₂'
  · intro h
    exact hudb (Option.some.inj h)
  · intro h
    have h' : ((stableUserId st s₁).1 : Int) =
        ((stableUserId (stableUserId st s₁).2 s₂).1 : Int) := h
    exact stableUserId_inj st s₁ s₂ hwf hne (by exact_mod_cast h'.symm)

/-- Witness for C2: two sessions registered with distinct DSN pairs and a
verifier mapping two concrete tokens to the two identities. -/
theorem C2_session_isolation_witness :
    ∃ ctx₁ st₁ ctx₂ st₂,
      getRequestContext "0123456789abcdef0123456789abcdef"
        (fun t => if t = "t1" then some ⟨some "s1", none, none⟩
                  else if t = "t2" then some ⟨some "s2", none, none⟩ else none)
        (storeCredentials (storeCredentials initialAuthState "s2" "iot2" "udb2")
          "s1" "iot1" "udb1")
        (some "Bearer t1") none none 1 "" = .ok (ctx₁, st₁) ∧
      getRequestContext "0123456789abcdef0123456789abcdef"
        (fun t => if t = "t1" then some ⟨some "s1", none, none⟩
                  else if t = "t2" then some ⟨some "s2", none, none⟩ else none)
        st₁ (some "Bearer t2") none none 1 "" = .ok (ctx₂, st₂) ∧
      ctx₁.dsn = "iot1" ∧ ctx₁.appStateDsn = some "udb1" ∧
      ctx₂.dsn = "iot2" ∧ ctx₂.appStateDsn = some "udb2" ∧
      ctx₁.dsn ≠ ctx₂.dsn ∧ ctx₁.appStateDsn ≠ ctx₂.appStateDsn ∧
      ctx₁.userId ≠ ctx₂.userId :=
  C2_session_isolation "0123456789abcdef0123456789abcdef"
    (fun t => if t = "t1" then some ⟨some "s1", none, none⟩
              else if t = "t2" then some ⟨some "s2", none, none⟩ else none)
    (storeCredentials (storeCredentials initialAuthState "s2" "iot2" "udb2")
      "s1" "iot1" "udb1")
    "s1" "s2" ⟨"iot1", "udb1"⟩ ⟨"iot2", "udb2"⟩
    ⟨some "s1", none, none⟩ ⟨some "s2", none, none⟩
    (some "Bearer t1") (some "Bearer t2") none "t1" "t2" none 1 ""
    (authWF_of_nil _ 1) (by decide) (by decide) (by decide) (by decide)
    (by decide) (by decide) (by decide) (by decide)
    (by decide) (by decide) (by decide) (by decide)
    (by decide) (by decide) (by decide) (by decide)

/-- **C3.** Stable Tenant Id assignment is stable (resolving the same session
identity twice yields the same integer), injective (distinct identities never
share an integer), and an assignment, once made, is never changed by later
resolutions. -/
theorem C3_stable_tenant_id
    (st : AuthState) (k k₁ k₂ k' : String) (v : Nat) (hwf : AuthWF st) :
    (stableUserId (stableUserId st k).2 k).1 = (stableUserId st k).1 ∧
    (k₁ ≠ k₂ → (stableUserId (stableUserId st k₁).2 k₂).1 ≠ (stableUserId st k₁).1) ∧
    (alookup st.uuidToInt k' = some v →
      alookup (stableUserId st k).2.uuidToInt k' = some v) ∧
    (alookup st.uuidToInt k' = some v → (stableUserId st k').1 = v) := by
  refine ⟨?_, ?_, ?_, ?_⟩
  · exact congrArg Prod.fst (stableUserId_stable st k)
  · intro hne
    exact stableUserId_inj st k₁ k₂ hwf hne
  · intro h
    exact stableUserId_preserves st k' k v h
  · intro h
    exact congrArg Prod.fst (stableUserId_of_lookup st k' v h)

/-- Witness for C3 on a concrete registry containing the identity `"c"`. -/
theorem C3_stable_tenant_id_witness :
    (stableUserId (stableUserId (stableUserId initialAuthState "c").2 "a").2 "a").1 =
      (stableUserId (stableUserId initialAuthState "c").2 "a").1 ∧
    (stableUserId (stableUserId (stableUserId initialAuthState "c").2 "a").2 "b").1 ≠
      (stableUserId (stableUserId initialAuthState "c").2 "a").1 ∧
    alookup (stableUserId (stableUserId initialAuthState "c").2 "a").2.uuidToInt "c" =
      some 1 ∧
    (stableUserId (stableUserId initialAuthState "c").2 "c").1 = 1 :=
  have h := C3_stable_tenant_id (stableUserId initialAuthState "c").2 "a" "a" "b" "c" 1
    (stableUserId_wf initialAuthState "c" (authWF_of_nil [] 1))
  ⟨h.1, h.2.1 (by decide), h.2.2.1 (by decide), h.2.2.2 (by decide)⟩

/-- **C4.** Tracking-source whitelist: every column name interpolated into a
tracking SQL query by `batch_sparklines`, `batch_latest_values` or
`sensor_history` is one of `TRACKING_DATA_CORE_SIGNALS`; a requested
tracking label outside the whitelist is never interpolated by the batch
operations and is rejected with a 400 by `sensor_history`. -/
theorem C4_tracking_whitelist
    (pairs : List SensorPair) (d : Int) (label source : String) (hours : Int) :
    (∀ c ∈ sparklinesTrackingCols pairs, c ∈ TRACKING_DATA_CORE_SIGNALS) ∧
    (∀ q ∈ latestTrackingQueries pairs, q.2 ∈ TRACKING_DATA_CORE_SIGNALS) ∧
    (∀ dev col h, sensorHistoryPlan d label source hours = .ok (.trackingQ dev col h) →
      col ∈ TRACKING_DATA_CORE_SIGNALS) ∧
    (label ∉ TRACKING_DATA_CORE_SIGNALS →
      (∀ dev, (dev, label) ∉ latestTrackingQueries pairs) ∧
      label ∉ sparklinesTrackingCols pairs ∧
      (normalizeSource (some source) = "tracking" →
       (hours = 1 ∨ hours = 4 ∨ hours = 12 ∨ hours = 24) →
       sensorHistoryPlan d label source hours =
         .httpError ⟨400, "sensor_input_label not allowed for tracking source"⟩)) := by
  have hlatest : ∀ q ∈ latestTrackingQueries pairs, q.2 ∈ TRACKING_DATA_CORE_SIGNALS := by
    intro q hq
    simp only [latestTrackingQueries, trackingPartition, List.mem_map, List.mem_filter,
      decide_eq_true_eq] at hq
    obtain ⟨t, ⟨_, _, hwl⟩, hqe⟩ := hq
    rw [← hqe]
    exact hwl
  have hspark : ∀ c ∈ sparklinesTrackingCols pairs, c ∈ TRACKING_DATA_CORE_SIGNALS := by
    intro c hc
    simp only [sparklinesTrackingCols, List.mem_dedup, List.mem_map] at hc
    obtain ⟨q, hq, hce⟩ := hc
    rw [← hce]
    exact hlatest q hq
  refine ⟨hspark, hlatest, ?_, ?_⟩
  · intro dev col h hplan
    simp only [sensorHistoryPlan] at hplan
    split at hplan
    · exact absurd hplan (by simp)
    · split at hplan
      · exact absurd hplan (by simp)
      · next hnot =>
        rw [not_and_or, not_not] at hnot
        split at hplan
        · exact absurd hplan (by simp)
        · split at hplan
          · exact absurd hplan (by simp)
          · next hni hns =>
            have htr : normalizeSource (some source) = "tracking" := by
              rcases normalizeSource_cases (some source) with h' | h' | h'
              · exact absurd h' hni
              · exact absurd h' hns
              · exact h'
            rcases hnot with h' | h'
            · exact absurd htr h'
            · obtain ⟨_, hcol, _⟩ := HistoryQuery.trackingQ.inj (ApiResult.ok.inj hplan)
              exact hcol ▸ h'
  · intro hlab
    refine ⟨?_, ?_, ?_⟩
    · intro dev hmem
      exact hlab (hlatest (dev, label) hmem)
    · intro hmem
      exact hlab (hspark label hmem)
    · intro hsrc hh
      have hh' : (hours = 1 ∨ hours = 4 ∨ hours = 12 ∨ hours = 24) = True := eq_true hh
      simp [sensorHistoryPlan, hh', hsrc, hlab]

/-- Witness for C4 on a concrete pair list containing a whitelisted and a
non-whitelisted tracking label. -/
theorem C4_tracking_whitelist_witness :
    "speed" ∈ TRACKING_DATA_CORE_SIGNALS ∧
    ((5 : Int), "evil_col") ∉
      latestTrackingQueries
        [⟨5, "speed", some "tracking"⟩, ⟨5, "evil_col", some "tracking"⟩, ⟨7, "temp", none⟩] ∧
    sensorHistoryPlan 1 "evil_col" "tracking" 4 =
      .httpError ⟨400, "sensor_input_label not allowed for tracking source"⟩ :=
  have h := C4_tracking_whitelist
    [⟨5, "speed", some "tracking"⟩, ⟨5, "evil_col", some "tracking"⟩, ⟨7, "temp", none⟩]
    1 "evil_col" "tracking" 4
  have h4 := h.2.2.2 (by decide)
  ⟨h.1 "speed" (by decide), h4.1 5, h4.2.2 (by decide) (by decide)⟩

/-- **C5.** For both configured-sensor create and update, any numeric
threshold pair with `min_threshold >= max_threshold` (equality included) is
rejected with the invalid-input error and the store is left unchanged. -/
theorem C5_min_ge_max_rejected
    (tablesExist : Bool) (uid : Int) (csId : Nat)
    (cbody : ConfiguredSensorCreate) (ubody : ConfiguredSensorUpdate)
    (st : AppStateStore) (mn mx mn' mx' : Rat)
    (hcmn : cbody.minThreshold = some mn) (hcmx : cbody.maxThreshold = some mx)
    (hcge : mn ≥ mx)
    (humn : (ubody.minThreshold).join = some mn')
    (humx : (ubody.maxThreshold).join = some mx')
    (huge : mn' ≥ mx') :
    addConfiguredSensor tablesExist uid cbody st = (.httpError minMaxError, st) ∧
    updateConfiguredSensor tablesExist uid csId ubody st = (.httpError minMaxError, st) := by
  have h1 : minMaxRejected cbody.minThreshold cbody.maxThreshold = true := by
    rw [hcmn, hcmx]
    simpa [minMaxRejected] using hcge
  have h2 : minMaxRejected (ubody.minThreshold).join (ubody.maxThreshold).join = true := by
    rw [humn, humx]
    simpa [minMaxRejected] using huge
  constructor
  · simp only [addConfiguredSensor, h1]
    rw [if_pos trivial]
  · simp only [updateConfiguredSensor, h2]
    rw [if_pos trivial]

/-- Witness for C5 at an equal threshold pair on create and a reversed pair
on update. -/
theorem C5_min_ge_max_rejected_witness :
    addConfiguredSensor true 1
      ⟨10, 2, "temp", "input", none, "T", some 5, some 5, none⟩ emptyStore =
      (.httpError minMaxError, emptyStore) ∧
    updateConfiguredSensor true 1 1
      ⟨none, some (some 7), some (some 3), none⟩ emptyStore =
      (.httpError minMaxError, emptyStore) :=
  C5_min_ge_max_rejected true 1 1
    ⟨10, 2, "temp", "input", none, "T", some 5, some 5, none⟩
    ⟨none, some (some 7), some (some 3), none⟩
    emptyStore 5 5 7 3 rfl rfl (by norm_num) rfl rfl (by norm_num)

/-- **C6.** Adding a dashboard plane for a (tenant, configured sensor) pair
that already has a row updates that row's position index in place: the key
uniqueness invariant is preserved, rows with equal plane keys coincide, and
when a row for the pair pre-existed the table size is unchanged and the
pre-existing row reappears with the new position index. -/
theorem C6_dashboard_plane_upsert
    (uid : Int) (csId : Nat) (pos : Int) (st : AppStateStore)
    (r : DashboardPlaneRow) (st' : AppStateStore)
    (hU : PlanesUnique st)
    (hres : addDashboardPlane true uid csId pos st = (.ok r, st')) :
    PlanesUnique st' ∧
    (∀ d₁ ∈ st'.dashboardPlanes, ∀ d₂ ∈ st'.dashboardPlanes,
      planeKey d₁ = planeKey d₂ → d₁ = d₂) ∧
    (∀ d₀ ∈ st.dashboardPlanes, planeKey d₀ = (uid, csId) →
      st'.dashboardPlanes.length = st.dashboardPlanes.length ∧
      ({ d₀ with positionIndex := pos } : DashboardPlaneRow) ∈ st'.dashboardPlanes) := by
  rw [addDashboardPlane] at hres
  rw [if_neg (by simp)] at hres
  split at hres
  · exact ApiResult.noConfusion (congrArg Prod.fst hres)
  · split at hres
    · next existing hfind =>
      obtain ⟨hval, hstate⟩ := Prod.mk.inj hres
      have hmapkey : (st.dashboardPlanes.map (fun d =>
          if d.userId = uid ∧ d.configuredSensorId = csId then
            { d with positionIndex := pos } else d)).map planeKey =
          st.dashboardPlanes.map planeKey := by
        rw [List.map_map]
        refine List.map_congr_left ?_
        intro d _
        by_cases hd : d.userId = uid ∧ d.configuredSensorId = csId
        · simp only [Function.comp_apply, if_pos hd]
          rfl
        · simp only [Function.comp_apply, if_neg hd]
      have hUnew : PlanesUnique st' := by
        rw [← hstate]
        show ((st.dashboardPlanes.map _).map planeKey).Nodup
        rw [hmapkey]
        exact hU
      refine ⟨hUnew, fun d₁ h₁ d₂ h₂ hk => List.inj_on_of_nodup_map hUnew h₁ h₂ hk, ?_⟩
      intro d₀ hd₀ hkey
      have hpred : d₀.userId = uid ∧ d₀.configuredSensorId = csId := by
        have h1 := congrArg Prod.fst hkey
        have h2 := congrArg Prod.snd hkey
        exact ⟨h1, h2⟩
      constructor
      · rw [← hstate]
        exact List.length_map ..
      · rw [← hstate]
        show _ ∈ st.dashboardPlanes.map _
        have : ({ d₀ with positionIndex := pos } : DashboardPlaneRow) =
            (if d₀.userId = uid ∧ d₀.configuredSensorId = csId then
              { d₀ with positionIndex := pos } else d₀) := by
          rw [if_pos hpred]
        rw [this]
        exact List.mem_map_of_mem _ hd₀
    · next hfind =>
      obtain ⟨hval, hstate⟩ := Prod.mk.inj hres
      have hnone : ∀ d ∈ st.dashboardPlanes,
          ¬ (d.userId = uid ∧ d.configuredSensorId = csId) := by
        intro d hd hcontra
        have := List.find?_eq_none.1 hfind d hd
        simp only [decide_eq_true_eq] at this
        exact this hcontra
      have hkey_notmem : ((uid, csId) : Int × Nat) ∉ st.dashboardPlanes.map planeKey := by
        intro hmem
        obtain ⟨d, hd, hdk⟩ := List.mem_map.1 hmem
        exact hnone d hd ⟨congrArg Prod.fst hdk, congrArg Prod.snd hdk⟩
      have hUnew : PlanesUnique st' := by
        rw [← hstate]
        show ((st.dashboardPlanes ++
          [({ dashboardPlaneId := st.nextDashboardPlaneId, userId := uid,
              configuredSensorId := csId, positionIndex := pos } : DashboardPlaneRow)]).map
            planeKey).Nodup
        rw [List.map_append]
        rw [List.nodup_append]
        refine ⟨hU, List.nodup_singleton _, ?_⟩
        intro k hk hk'
        simp only [List.map_cons, List.map_nil, List.mem_singleton] at hk'
        rw [hk'] at hk
        exact hkey_notmem hk
      refine ⟨hUnew, fun d₁ h₁ d₂ h₂ hk => List.inj_on_of_nodup_map hUnew h₁ h₂ hk, ?_⟩
      intro d₀ hd₀ hkey
      exact absurd ⟨congrArg Prod.fst hkey, congrArg Prod.snd hkey⟩ (hnone d₀ hd₀)

/-- Witness for C6: re-adding configured sensor 1 for tenant 1, whose plane
row ⟨1, 1, 1, 0⟩ already exists, keeps one row and moves it to position 5. -/
theorem C6_dashboard_plane_upsert_witness :
    PlanesUnique { configuredSensors :=
                     [⟨1, 1, 10, 2, "temp", "input", none, "T", none, none, none, true⟩],
                   dashboardPlanes := [⟨1, 1, 1, 5⟩],
                   nextConfiguredSensorId := 2, nextDashboardPlaneId := 2 } ∧
    ([(⟨1, 1, 1, 5⟩ : DashboardPlaneRow)]).length =
      ([(⟨1, 1, 1, 0⟩ : DashboardPlaneRow)]).length ∧
    (⟨1, 1, 1, 5⟩ : DashboardPlaneRow) ∈ [(⟨1, 1, 1, 5⟩ : DashboardPlaneRow)] :=
  have h := C6_dashboard_plane_upsert 1 1 5
    { configuredSensors := [⟨1, 1, 10, 2, "temp", "input", none, "T", none, none, none, true⟩],
      dashboardPlanes := [⟨1, 1, 1, 0⟩],
      nextConfiguredSensorId := 2, nextDashboardPlaneId := 2 }
    ⟨1, 1, 1, 5⟩
    { configuredSensors := [⟨1, 1, 10, 2, "temp", "input", none, "T", none, none, none, true⟩],
      dashboardPlanes := [⟨1, 1, 1, 5⟩],
      nextConfiguredSensorId := 2, nextDashboardPlaneId := 2 }
    (by unfold PlanesUnique; decide) (by decide)
  have h3 := h.2.2 ⟨1, 1, 1, 0⟩ (by decide) (by decide)
  ⟨h.1, h3.1, h3.2⟩

/-- **C7.** Dashboard-plane deletion is tenant-scoped: any row removed by the
delete belonged to the caller's tenant and carried the requested id, and when
the row with the requested id belongs to a different tenant (ids unique), the
call reports not-found and the store — that row included — is unchanged. -/
theorem C7_remove_plane_tenant_scoped (uid : Int) (pid : Nat) (st : AppStateStore) :
    (∀ e ∈ st.dashboardPlanes,
      e ∉ (removeDashboardPlane true uid pid st).2.dashboardPlanes →
      e.dashboardPlaneId = pid ∧ e.userId = uid) ∧
    ((st.dashboardPlanes.map (fun x => x.dashboardPlaneId)).Nodup →
      ∀ d ∈ st.dashboardPlanes, d.dashboardPlaneId = pid → d.userId ≠ uid →
      removeDashboardPlane true uid pid st =
        (.httpError ⟨404, "Dashboard plane not found"⟩, st)) := by
  have hsnd : (removeDashboardPlane true uid pid st).2.dashboardPlanes =
      st.dashboardPlanes.filter
        (fun d => ¬ (d.dashboardPlaneId = pid ∧ d.userId = uid)) := by
    simp only [removeDashboardPlane]
    rw [if_neg (by simp)]
    split <;> rfl
  constructor
  · intro e hmem hnot
    rw [hsnd] at hnot
    by_contra hcon
    exact hnot (List.mem_filter.2 ⟨hmem, by simp only [decide_eq_true_eq]; exact hcon⟩)
  · intro hids d hmem hdp howner
    have hkeep : st.dashboardPlanes.filter
        (fun d => ¬ (d.dashboardPlaneId = pid ∧ d.userId = uid)) =
        st.dashboardPlanes := by
      rw [List.filter_eq_self]
      intro e he
      simp only [decide_eq_true_eq]
      rintro ⟨hep, heu⟩
      have : e = d := List.inj_on_of_nodup_map hids he hmem (by rw [hep, hdp])
      exact howner (this ▸ heu)
    simp only [removeDashboardPlane]
    rw [if_neg (by simp), hkeep, if_pos rfl]

/-- Witness for C7: store [⟨1, 2, 1, 0⟩] (row id 1 owned by tenant 2);
tenant 1's delete of id 1 reports not-found and leaves the store unchanged,
while tenant 2's delete removes only its own row. -/
theorem C7_remove_plane_tenant_scoped_witness :
    removeDashboardPlane true 1 1
      { configuredSensors := [], dashboardPlanes := [⟨1, 2, 1, 0⟩],
        nextConfiguredSensorId := 1, nextDashboardPlaneId := 2 } =
      (.httpError ⟨404, "Dashboard plane not found"⟩,
       { configuredSensors := [], dashboardPlanes := [⟨1, 2, 1, 0⟩],
         nextConfiguredSensorId := 1, nextDashboardPlaneId := 2 }) ∧
    ((⟨1, 2, 1, 0⟩ : DashboardPlaneRow).dashboardPlaneId = 1 ∧
      (⟨1, 2, 1, 0⟩ : DashboardPlaneRow).userId = 2) :=
  ⟨(C7_remove_plane_tenant_scoped 1 1
      { configuredSensors := [], dashboardPlanes := [⟨1, 2, 1, 0⟩],
        nextConfiguredSensorId := 1, nextDashboardPlaneId := 2 }).2
      (by decide) ⟨1, 2, 1, 0⟩ (by decide) (by decide) (by decide),
   (C7_remove_plane_tenant_scoped 2 1
      { configuredSensors := [], dashboardPlanes := [⟨1, 2, 1, 0⟩],
        nextConfiguredSensorId := 1, nextDashboardPlaneId := 2 }).1
      ⟨1, 2, 1, 0⟩ (by decide) (by decide)⟩

/-- **C8 counterexample.** With the relational-schema tables missing,
`add_dashboard_plane` — a write operation — does not fail with a
store-not-initialized `HTTPException`: the `UndefinedTable` error escapes
the handler as an uncaught generic failure. -/
theorem C8_counterexample_dashboard_write_uncaught :
    (addDashboardPlane false 1 1 0 emptyStore).1 = ApiResult.uncaught undefinedTableMsg ∧
    (addDashboardPlane false 1 1 0 emptyStore).1.isHttpError = false :=
  ⟨rfl, rfl⟩

/-- **C8 (amended).** With the relational-schema tables missing, the list
operations return empty results and the configured-sensor create fails with
the actionable store-not-initialized error, but the other writes — the
configured-sensor update and delete and the dashboard-plane add and remove —
propagate the missing-table error as an uncaught generic failure. -/
theorem C8_amended_store_uninitialized
    (uid : Int) (csId planeId : Nat) (pos : Int)
    (body : ConfiguredSensorCreate) (ubody : ConfiguredSensorUpdate)
    (st : AppStateStore)
    (hok : minMaxRejected body.minThreshold body.maxThreshold = false)
    (huok : minMaxRejected (ubody.minThreshold).join (ubody.maxThreshold).join = false)
    (hfields : ¬ (ubody.sensorLabelCustom = none ∧ ubody.minThreshold = none ∧
      ubody.maxThreshold = none ∧ ubody.multiplier = none)) :
    listConfiguredSensors false uid st = .ok [] ∧
    listDashboardPlanes false uid st = .ok [] ∧
    addConfiguredSensor false uid body st = (.httpError storeNotInitializedError, st) ∧
    updateConfiguredSensor false uid csId ubody st = (.uncaught undefinedTableMsg, st) ∧
    deleteConfiguredSensor false uid csId st = (.uncaught undefinedTableMsg, st) ∧
    addDashboardPlane false uid csId pos st = (.uncaught undefinedTableMsg, st) ∧
    removeDashboardPlane false uid planeId st = (.uncaught undefinedTableMsg, st) := by
  refine ⟨rfl, rfl, ?_, ?_, rfl, rfl, rfl⟩
  · simp [addConfiguredSensor, hok]
  · simp only [updateConfiguredSensor, huok]
    rw [if_neg (by simp)]
    rw [if_neg (by simpa [Option.isNone_iff_eq_none] using hfields)]
    rfl

/-- Witness for the amended C8 at a threshold-free create body, a
label-only update body and an empty store. -/
theorem C8_amended_store_uninitialized_witness :
    listConfiguredSensors false 1 emptyStore = .ok [] ∧
    listDashboardPlanes false 1 emptyStore = .ok [] ∧
    addConfiguredSensor false 1 ⟨10, 2, "temp", "input", none, "T", none, none, none⟩
      emptyStore = (.httpError storeNotInitializedError, emptyStore) ∧
    updateConfiguredSensor false 1 1 ⟨some "L", none, none, none⟩ emptyStore =
      (.uncaught undefinedTableMsg, emptyStore) ∧
    deleteConfiguredSensor false 1 1 emptyStore = (.uncaught undefinedTableMsg, emptyStore) ∧
    addDashboardPlane false 1 1 0 emptyStore = (.uncaught undefinedTableMsg, emptyStore) ∧
    removeDashboardPlane false 1 1 emptyStore = (.uncaught undefinedTableMsg, emptyStore) :=
  C8_amended_store_uninitialized 1 1 1 0
    ⟨10, 2, "temp", "input", none, "T", none, none, none⟩
    ⟨some "L", none, none, none⟩ emptyStore rfl rfl (by decide)

/-- **C9.** `sensor_history` rejects with a 400 every `hours` outside
{1, 4, 12, 24}; with an in-range `hours` it rejects with a 400 every
tracking-source label outside the whitelist; and when both checks pass it
resolves to a query without raising a validation error. -/
theorem C9_history_validation (d : Int) (label source : String) (hours : Int) :
    (¬ (hours = 1 ∨ hours = 4 ∨ hours = 12 ∨ hours = 24) →
      sensorHistoryPlan d label source hours =
        .httpError ⟨400, "hours must be 1, 4, 12, or 24"⟩) ∧
    ((hours = 1 ∨ hours = 4 ∨ hours = 12 ∨ hours = 24) →
      normalizeSource (some source) = "tracking" → label ∉ TRACKING_DATA_CORE_SIGNALS →
      sensorHistoryPlan d label source hours =
        .httpError ⟨400, "sensor_input_label not allowed for tracking source"⟩) ∧
    ((hours = 1 ∨ hours = 4 ∨ hours = 12 ∨ hours = 24) →
      (normalizeSource (some source) = "tracking" → label ∈ TRACKING_DATA_CORE_SIGNALS) →
      ∃ q, sensorHistoryPlan d label source hours = .ok q) := by
  refine ⟨?_, ?_, ?_⟩
  · intro hbad
    simp [sensorHistoryPlan, hbad]
  · intro hh hsrc hlab
    have hh' : (hours = 1 ∨ hours = 4 ∨ hours = 12 ∨ hours = 24) = True := eq_true hh
    simp [sensorHistoryPlan, hh', hsrc, hlab]
  · intro hh hwl
    have hh' : (hours = 1 ∨ hours = 4 ∨ hours = 12 ∨ hours = 24) = True := eq_true hh
    rcases normalizeSource_cases (some source) with hsrc | hsrc | hsrc
    · exact ⟨.inputQ d label hours, by simp [sensorHistoryPlan, hh', hsrc]⟩
    · exact ⟨.stateQ d label hours, by simp [sensorHistoryPlan, hh', hsrc]⟩
    · exact ⟨.trackingQ d label hours, by simp [sensorHistoryPlan, hh', hsrc, hwl hsrc]⟩

/-- Witness for C9 at hours 5 (rejected), a bad tracking label at hours 4
(rejected), and a whitelisted tracking label at hours 24 (accepted). -/
theorem C9_history_validation_witness :
    sensorHistoryPlan 1 "temp" "input" 5 =
      .httpError ⟨400, "hours must be 1, 4, 12, or 24"⟩ ∧
    sensorHistoryPlan 1 "evil" "tracking" 4 =
      .httpError ⟨400, "sensor_input_label not allowed for tracking source"⟩ ∧
    ∃ q, sensorHistoryPlan 1 "speed" "tracking" 24 = .ok q :=
  ⟨(C9_history_validation 1 "temp" "input" 5).1 (by decide),
   (C9_history_validation 1 "evil" "tracking" 4).2.1 (by decide) (by decide) (by decide),
   (C9_history_validation 1 "speed" "tracking" 24).2.2 (by decide) (fun _ => by decide)⟩

/-- **C10.** Strict mode holds exactly when the signing secret has at least
32 characters; with any shorter secret the resolver ignores any presented
bearer token (for every verifier) and always returns the header/default
fallback context, and the login endpoint refuses with a 501 and stores
nothing. -/
theorem C10_strict_mode_threshold (secret : String) :
    (isAppConnectEnabled secret = true ↔ 32 ≤ secret.length) ∧
    (secret.length < 32 →
      ∀ (verify : String → Option TokenPayload) (st : AuthState)
        (hdr xdsn : Option String) (uq : Option Int) (du : Int) (dd : String),
        getRequestContext secret verify st hdr xdsn uq du dd =
          .ok (⟨fallbackDsn xdsn dd, none, uq.getD du⟩, st)) ∧
    (secret.length < 32 →
      ∀ (validateDsn : String → Bool) (freshUuid : String)
        (mkToken : String → String → String → String) (st : AuthState)
        (body : AuthLoginRequest),
        authLogin secret validateDsn freshUuid mkToken st body =
          (.err ⟨501,
            "Navixy App Connect not configured (set JWT_SECRET with at least 32 characters)"⟩,
           st)) := by
  have hchar : ∀ h : secret.length < 32, isAppConnectEnabled secret = false := by
    intro h
    simp only [isAppConnectEnabled]
    simp
    omega
  refine ⟨?_, ?_, ?_⟩
  · simp [isAppConnectEnabled]
  · intro h verify st hdr xdsn uq du dd
    exact getRequestContext_disabled secret verify st hdr xdsn uq du dd (hchar h)
  · intro h validateDsn freshUuid mkToken st body
    simp [authLogin, hchar h]

/-- Witness for C10: the threshold characterization at a 32-character secret,
and the fallback and login refusal at the short secret `"short"`. -/
theorem C10_strict_mode_threshold_witness :
    (isAppConnectEnabled "0123456789abcdef0123456789abcdef" = true ↔
      32 ≤ ("0123456789abcdef0123456789abcdef" : String).length) ∧
    getRequestContext "short" (fun _ => some ⟨some "u", none, none⟩) initialAuthState
      (some "Bearer tok") (some " db ") none 7 "fallback" =
      .ok (⟨fallbackDsn (some " db ") "fallback", none, (7 : Int)⟩, initialAuthState) ∧
    authLogin "short" (fun _ => true) "uuid-1" (fun _ _ _ => "tok") initialAuthState
      ⟨"e@x.com", "postgresql://a/db", "postgresql://b/db", "admin"⟩ =
      (.err ⟨501,
        "Navixy App Connect not configured (set JWT_SECRET with at least 32 characters)"⟩,
       initialAuthState) :=
  ⟨(C10_strict_mode_threshold "0123456789abcdef0123456789abcdef").1,
   (C10_strict_mode_threshold "short").2.1 (by decide)
     (fun _ => some ⟨some "u", none, none⟩) initialAuthState
     (some "Bearer tok") (some " db ") none 7 "fallback",
   (C10_strict_mode_threshold "short").2.2 (by decide)
     (fun _ => true) "uuid-1" (fun _ _ _ => "tok") initialAuthState
     ⟨"e@x.com", "postgresql://a/db", "postgresql://b/db", "admin"⟩⟩

end Sensoriqua
